import Mathlib

/-!
Shallow embedding of the gluco_sugar client state layer.

Sources embedded here:
* the in-memory mock state container (`src/unnamed/part_000`): module-level
  stores `users`, `weightHistoryStore`, `glucoseLogsStore` plus the React
  state fields, with operations `signup`, `login`, `logout`,
  `updateProfileData`, `addWeightEntry`, `updateWeightEntry`,
  `deleteWeightEntry`, `deleteMultipleWeightEntries`, `addGlucoseLog`,
  `updateGlucoseLog`, `deleteGlucoseLog`, `deleteMultipleGlucoseLogs`;
* the SQL-backed state container (`src/src/context/app-context.tsx`, second
  variant in the file) whose collection updates run through `setX(prev => ...)`
  updater functions, with its server actions (`src/src/app/profile/page.tsx`,
  the db-actions part);
* `src/src/lib/types.ts` for the record shapes.

Modelling conventions:
* ISO date strings are represented by the `Nat` value of
  `new Date(s).getTime()`; `formatISO(new Date())` becomes an explicit `now`
  parameter.  Comparators `(a, b) => new Date(b.k).getTime() - new Date(a.k).getTime()`
  order entries descending by that number.
* `Array.prototype.sort` (ES2019 and later: a stable sort) is modelled by
  `List.insertionSort`, which is stable for the same total preorder, hence
  produces the identical output list.
* Thrown exceptions become `Except.error` with the thrown message.  In every
  embedded operation the source throws before performing any mutation, so an
  error result leaves the whole state as it was.
* `Date.now()` and `Math.random()` are nondeterministic inputs; they appear as
  explicit parameters (`now`, seed lists for the generated mock data).
* JS string interpolation such as the id template `weight_${Date.now()}` is
  embedded as `"weight_" ++ Nat.repr now`.
* Numeric payload fields (weight, glycemia, dosage, height) are carried as
  `Int`; no claim performs arithmetic on them.
-/

inductive MealType where
  | Breakfast | Lunch | Dinner | Snack | Fasting
deriving DecidableEq

/-- `GlucoseLog` from `src/src/lib/types.ts`; `timestamp` is the time value of
the stored ISO string. -/
structure GlucoseLog where
  id : String
  timestamp : Nat
  mealType : MealType
  glycemia : Int
  dosage : Int
deriving DecidableEq

/-- `WeightEntry` from `src/src/lib/types.ts`; `date` is the time value of the
stored ISO string. -/
structure WeightEntry where
  id : String
  date : Nat
  weight : Int
deriving DecidableEq

/-- An element of the module-level `users` array of the in-memory variant:
`UserProfile & \x7b password \x7d` together with the `id` the code assigns. -/
structure UserRec where
  id : String
  name : String
  email : String
  password : String
  birthdate : String
  height : Int
deriving DecidableEq

/-- The `AppUser` projection `\x7b id, email, displayName \x7d` built by the
in-memory variant. -/
structure AppUser where
  id : String
  email : String
  displayName : String
deriving DecidableEq

inductive AuthState where
  | loading | loggedIn | loggedOut
deriving DecidableEq

/-- The profile record returned by the db-actions `getUserProfile` /
`updateUserProfile` (`src/src/app/profile/page.tsx`): `birthdate` may be null. -/
structure UserProfileRec where
  id : String
  name : String
  email : String
  birthdate : Option String
  height : Int
deriving DecidableEq

/-- A `Partial` profile update record: each field is present (`some`) or
absent (`none`).  Matches `Partial<Omit<UserProfile, 'id' | 'email'>>`. -/
structure ProfilePatch where
  name : Option String
  birthdate : Option String
  height : Option Int
deriving DecidableEq

/-- The `addGlucoseLog` input `Omit<GlucoseLog, 'id' | 'timestamp'> &
\x7b timestamp?: string \x7d`.  In the `Nat` time model, `some t` stands for a
present, non-empty timestamp string with time value `t`; an absent or empty
string (both falsy in JS, hence both replaced by the current time by
`log.timestamp || formatISO(new Date())`) is `none`.  The string-level
behaviour on the empty string is modelled separately by `storedTimestamp`. -/
structure GlucoseInput where
  mealType : MealType
  glycemia : Int
  dosage : Int
  timestamp : Option Nat
deriving DecidableEq

/-- Descending-by-date order used by the weight comparators
`(a, b) => new Date(b.date).getTime() - new Date(a.date).getTime()`:
`a` may come before `b` exactly when `b.date ≤ a.date`. -/
def wLe (a b : WeightEntry) : Prop := b.date ≤ a.date

instance : DecidableRel wLe := fun a b => inferInstanceAs (Decidable (b.date ≤ a.date))

instance : IsTotal WeightEntry wLe := ⟨fun a b => Nat.le_total b.date a.date⟩

instance : IsTrans WeightEntry wLe := ⟨fun _ _ _ h1 h2 => Nat.le_trans h2 h1⟩

/-- Descending-by-timestamp order used by the glucose comparators. -/
def glLe (a b : GlucoseLog) : Prop := b.timestamp ≤ a.timestamp

instance : DecidableRel glLe := fun a b => inferInstanceAs (Decidable (b.timestamp ≤ a.timestamp))

instance : IsTotal GlucoseLog glLe := ⟨fun a b => Nat.le_total b.timestamp a.timestamp⟩

instance : IsTrans GlucoseLog glLe := ⟨fun _ _ _ h1 h2 => Nat.le_trans h2 h1⟩

/-- `list.sort((a, b) => new Date(b.date).getTime() - new Date(a.date).getTime())`
on weight entries (stable sort, modelled by stable insertion sort). -/
def sortWeightDesc (l : List WeightEntry) : List WeightEntry := List.insertionSort wLe l

/-- `list.sort((a, b) => new Date(b.timestamp).getTime() - new Date(a.timestamp).getTime())`
on glucose logs. -/
def sortGlucoseDesc (l : List GlucoseLog) : List GlucoseLog := List.insertionSort glLe l

/-- The generated weight id `weight_${Date.now()}`. -/
def weightIdOf (now : Nat) : String := "weight_" ++ Nat.repr now

/-- The generated glucose id `gl_${Date.now()}`. -/
def glIdOf (now : Nat) : String := "gl_" ++ Nat.repr now

/-- The generated user id `user_${Date.now()}`. -/
def userIdOf (now : Nat) : String := "user_" ++ Nat.repr now

/-- The `GlucoseLog` built by `addGlucoseLog`: generated id `gl_${Date.now()}`
(clock reading `idNow`) and timestamp `log.timestamp || formatISO(new Date())`
(clock reading `tsNow`); the remaining fields are spread from the input. -/
def newGlucoseLog (idNow tsNow : Nat) (input : GlucoseInput) : GlucoseLog :=
  { id := glIdOf idNow
    timestamp := input.timestamp.getD tsNow
    mealType := input.mealType
    glycemia := input.glycemia
    dosage := input.dosage }

/-- JS object spread `\x7b ...u, ...patch \x7d` on the three profile fields a
patch can carry: a key present in the patch overrides, an absent key leaves
the field of `u`. -/
def applyPatch (u : UserRec) (p : ProfilePatch) : UserRec :=
  { u with
    name := p.name.getD u.name
    birthdate := p.birthdate.getD u.birthdate
    height := p.height.getD u.height }

namespace Mem

/-- The combined module-level and React state of the in-memory variant
(`src/unnamed/part_000`): `users`, the two per-user stores (lookup
`store[uid] || []` is the function value), and the provider state fields. -/
structure MemState where
  users : List UserRec
  weightStore : String → List WeightEntry
  glucoseStore : String → List GlucoseLog
  user : Option AppUser
  profile : Option UserRec
  weightHistory : List WeightEntry
  glucoseLogs : List GlucoseLog
  authState : AuthState

/-- `signup` (part_000 lines 85..109).  `seedW`/`seedG` are the mock data
`createInitialData` would generate (its dates and `Math.random()` draws are
nondeterministic inputs).  Throws before any mutation when the email exists. -/
def signup (now : Nat) (email password name : String)
    (seedW : List WeightEntry) (seedG : List GlucoseLog) (s : MemState) :
    Except String MemState :=
  if s.users.any (fun u => u.email = email) then
    Except.error ("An account with this email already exists.")
  else
    let id := userIdOf now
    let newUser : UserRec :=
      { id := id, name := name, email := email, password := password
        birthdate := "", height := 0 }
    let g := if (s.glucoseStore id).isEmpty then seedG else s.glucoseStore id
    let w := if (s.weightStore id).isEmpty then seedW else s.weightStore id
    Except.ok
      { users := s.users ++ [newUser]
        weightStore := fun uid => if uid = id then w else s.weightStore uid
        glucoseStore := fun uid => if uid = id then g else s.glucoseStore uid
        user := some { id := id, email := email, displayName := name }
        profile := some newUser
        weightHistory := w
        glucoseLogs := g
        authState := AuthState.loggedIn }

/-- `login` (part_000 lines 111..126).  `users.find` is `List.find?`; the
throw `!foundUser || foundUser.password !== password` precedes all mutation. -/
def login (email password : String)
    (seedW : List WeightEntry) (seedG : List GlucoseLog) (s : MemState) :
    Except String MemState :=
  match s.users.find? (fun u => u.email = email) with
  | none => Except.error ("Invalid email or password.")
  | some foundUser =>
    if foundUser.password ≠ password then
      Except.error ("Invalid email or password.")
    else
      let g := if (s.glucoseStore foundUser.id).isEmpty then seedG
               else s.glucoseStore foundUser.id
      let w := if (s.weightStore foundUser.id).isEmpty then seedW
               else s.weightStore foundUser.id
      Except.ok
        { s with
          weightStore := fun uid => if uid = foundUser.id then w else s.weightStore uid
          glucoseStore := fun uid => if uid = foundUser.id then g else s.glucoseStore uid
          user := some { id := foundUser.id, email := foundUser.email
                         displayName := foundUser.name }
          profile := some foundUser
          weightHistory := w
          glucoseLogs := g
          authState := AuthState.loggedIn }

/-- `logout` (part_000 lines 128..135): clears the session state fields; the
module stores are untouched. -/
def logout (s : MemState) : MemState :=
  { s with
    user := none
    profile := none
    weightHistory := []
    glucoseLogs := []
    authState := AuthState.loggedOut }

/-- `updateProfileData` (part_000 lines 137..141): spread-merges the patch
into the matching `users` element and into `profile`. -/
def updateProfileData (patch : ProfilePatch) (s : MemState) : Except String MemState :=
  match s.user with
  | none => Except.error ("User not authenticated.")
  | some u =>
    Except.ok
      { s with
        users := s.users.map (fun x => if x.id = u.id then applyPatch x patch else x)
        profile := s.profile.map (fun p => applyPatch p patch) }

/-- `addWeightEntry` (part_000 lines 143..150). -/
def addWeightEntry (now : Nat) (weight : Int) (s : MemState) : Except String MemState :=
  match s.user with
  | none => Except.error ("User not authenticated.")
  | some u =>
    let newEntry : WeightEntry := { id := weightIdOf now, date := now, weight := weight }
    let sortedHistory := sortWeightDesc (newEntry :: s.weightStore u.id)
    Except.ok
      { s with
        weightStore := fun uid => if uid = u.id then sortedHistory else s.weightStore uid
        weightHistory := sortedHistory }

/-- `updateWeightEntry` (part_000 lines 152..159): replace by id, then re-sort. -/
def updateWeightEntry (updatedEntry : WeightEntry) (s : MemState) : Except String MemState :=
  match s.user with
  | none => Except.error ("User not authenticated.")
  | some u =>
    let sortedHistory := sortWeightDesc
      ((s.weightStore u.id).map (fun entry =>
        if entry.id = updatedEntry.id then updatedEntry else entry))
    Except.ok
      { s with
        weightStore := fun uid => if uid = u.id then sortedHistory else s.weightStore uid
        weightHistory := sortedHistory }

/-- `deleteWeightEntry` (part_000 lines 161..168): filter out the id, re-sort. -/
def deleteWeightEntry (id : String) (s : MemState) : Except String MemState :=
  match s.user with
  | none => Except.error ("User not authenticated.")
  | some u =>
    let sortedHistory := sortWeightDesc
      ((s.weightStore u.id).filter (fun entry => entry.id ≠ id))
    Except.ok
      { s with
        weightStore := fun uid => if uid = u.id then sortedHistory else s.weightStore uid
        weightHistory := sortedHistory }

/-- `deleteMultipleWeightEntries` (part_000 lines 170..178): `Set(ids)`
membership is list membership of `ids`. -/
def deleteMultipleWeightEntries (ids : List String) (s : MemState) : Except String MemState :=
  match s.user with
  | none => Except.error ("User not authenticated.")
  | some u =>
    let sortedHistory := sortWeightDesc
      ((s.weightStore u.id).filter (fun entry => ¬ ids.contains entry.id))
    Except.ok
      { s with
        weightStore := fun uid => if uid = u.id then sortedHistory else s.weightStore uid
        weightHistory := sortedHistory }

/-- `addGlucoseLog` (part_000 lines 180..191); the stored timestamp is
`log.timestamp || formatISO(new Date())`. -/
def addGlucoseLog (now : Nat) (input : GlucoseInput) (s : MemState) : Except String MemState :=
  match s.user with
  | none => Except.error ("User not authenticated.")
  | some u =>
    let newLog := newGlucoseLog now now input
    let sortedLogs := sortGlucoseDesc (newLog :: s.glucoseStore u.id)
    Except.ok
      { s with
        glucoseStore := fun uid => if uid = u.id then sortedLogs else s.glucoseStore uid
        glucoseLogs := sortedLogs }

/-- `updateGlucoseLog` (part_000 lines 193..200): replace by id, then re-sort. -/
def updateGlucoseLog (updatedLog : GlucoseLog) (s : MemState) : Except String MemState :=
  match s.user with
  | none => Except.error ("User not authenticated.")
  | some u =>
    let sortedLogs := sortGlucoseDesc
      ((s.glucoseStore u.id).map (fun log =>
        if log.id = updatedLog.id then updatedLog else log))
    Except.ok
      { s with
        glucoseStore := fun uid => if uid = u.id then sortedLogs else s.glucoseStore uid
        glucoseLogs := sortedLogs }

/-- `deleteGlucoseLog` (part_000 lines 202..209). -/
def deleteGlucoseLog (id : String) (s : MemState) : Except String MemState :=
  match s.user with
  | none => Except.error ("User not authenticated.")
  | some u =>
    let sortedLogs := sortGlucoseDesc
      ((s.glucoseStore u.id).filter (fun log => log.id ≠ id))
    Except.ok
      { s with
        glucoseStore := fun uid => if uid = u.id then sortedLogs else s.glucoseStore uid
        glucoseLogs := sortedLogs }

/-- `deleteMultipleGlucoseLogs` (part_000 lines 211..219). -/
def deleteMultipleGlucoseLogs (ids : List String) (s : MemState) : Except String MemState :=
  match s.user with
  | none => Except.error ("User not authenticated.")
  | some u =>
    let sortedLogs := sortGlucoseDesc
      ((s.glucoseStore u.id).filter (fun log => ¬ ids.contains log.id))
    Except.ok
      { s with
        glucoseStore := fun uid => if uid = u.id then sortedLogs else s.glucoseStore uid
        glucoseLogs := sortedLogs }

end Mem

namespace Ctx

/-- The provider state of the SQL-backed variant
(`src/src/context/app-context.tsx`, second variant). -/
structure CtxState where
  authState : AuthState
  user : Option AppUser
  profile : Option UserProfileRec
  weightHistory : List WeightEntry
  glucoseLogs : List GlucoseLog

/-- `logout` (app-context.tsx lines 214..221): after `db.logout()` every
session field is cleared. -/
def logout (s : CtxState) : CtxState :=
  { s with
    user := none
    profile := none
    weightHistory := []
    glucoseLogs := []
    authState := AuthState.loggedOut }

/-- `updateProfile` (app-context.tsx lines 223..229).  `dbProfile` is what
`db.updateUserProfile` resolves to; `if (updatedProfile) setProfile(...)`. -/
def updateProfile (dbProfile : Option UserProfileRec) (s : CtxState) :
    Except String CtxState :=
  match s.user with
  | none => Except.error ("User not authenticated.")
  | some _ =>
    Except.ok
      { s with
        profile := match dbProfile with
          | some p => some p
          | none => s.profile }

/-- `addWeightEntry` (app-context.tsx lines 231..236) together with the server
action `db.addWeightEntry` (`src/src/app/profile/page.tsx` lines 362..366).
`nowClient` is the `formatISO(new Date())` date built client side, `nowServer`
the server `Date.now()` used for the generated id. -/
def addWeightEntry (nowClient nowServer : Nat) (weight : Int) (s : CtxState) :
    Except String CtxState :=
  match s.user with
  | none => Except.error ("User not authenticated.")
  | some _ =>
    let entry : WeightEntry := { id := weightIdOf nowServer, date := nowClient, weight := weight }
    Except.ok { s with weightHistory := sortWeightDesc (entry :: s.weightHistory) }

/-- `updateWeightEntry` (app-context.tsx lines 238..242): the resolved entry
(`db.updateWeightEntry` echoes the fields it sets) replaces the matching
element in place, with no re-sort. -/
def updateWeightEntry (entry : WeightEntry) (s : CtxState) : Except String CtxState :=
  match s.user with
  | none => Except.error ("User not authenticated.")
  | some _ =>
    Except.ok
      { s with
        weightHistory := s.weightHistory.map (fun e => if e.id = entry.id then entry else e) }

/-- `deleteWeightEntry` (app-context.tsx lines 244..248). -/
def deleteWeightEntry (id : String) (s : CtxState) : Except String CtxState :=
  match s.user with
  | none => Except.error ("User not authenticated.")
  | some _ =>
    Except.ok { s with weightHistory := s.weightHistory.filter (fun entry => entry.id ≠ id) }

/-- `deleteMultipleWeightEntries` (app-context.tsx lines 250..255). -/
def deleteMultipleWeightEntries (ids : List String) (s : CtxState) : Except String CtxState :=
  match s.user with
  | none => Except.error ("User not authenticated.")
  | some _ =>
    Except.ok
      { s with
        weightHistory := s.weightHistory.filter (fun entry => ¬ ids.contains entry.id) }

/-- `addGlucoseLog` (app-context.tsx lines 257..265) together with
`db.addGlucoseLog` (page.tsx lines 398..402): the client fills
`log.timestamp || formatISO(new Date())`, the server generates the id. -/
def addGlucoseLog (nowClient nowServer : Nat) (input : GlucoseInput) (s : CtxState) :
    Except String CtxState :=
  match s.user with
  | none => Except.error ("User not authenticated.")
  | some _ =>
    let newLog := newGlucoseLog nowServer nowClient input
    Except.ok { s with glucoseLogs := sortGlucoseDesc (newLog :: s.glucoseLogs) }

/-- `updateGlucoseLog` (app-context.tsx lines 267..271): in-place replacement
by id, with no re-sort (`db.updateGlucoseLog` echoes the fields it sets). -/
def updateGlucoseLog (newLog : GlucoseLog) (s : CtxState) : Except String CtxState :=
  match s.user with
  | none => Except.error ("User not authenticated.")
  | some _ =>
    Except.ok
      { s with
        glucoseLogs := s.glucoseLogs.map (fun log => if log.id = newLog.id then newLog else log) }

/-- `deleteGlucoseLog` (app-context.tsx lines 273..277). -/
def deleteGlucoseLog (id : String) (s : CtxState) : Except String CtxState :=
  match s.user with
  | none => Except.error ("User not authenticated.")
  | some _ =>
    Except.ok { s with glucoseLogs := s.glucoseLogs.filter (fun log => log.id ≠ id) }

/-- `deleteMultipleGlucoseLogs` (app-context.tsx lines 279..284). -/
def deleteMultipleGlucoseLogs (ids : List String) (s : CtxState) : Except String CtxState :=
  match s.user with
  | none => Except.error ("User not authenticated.")
  | some _ =>
    Except.ok
      { s with glucoseLogs := s.glucoseLogs.filter (fun log => ¬ ids.contains log.id) }

end Ctx

namespace Db

/-- The effect of the server action `updateUserProfile`
(`src/src/app/profile/page.tsx` lines 333..349) on the matched user row.
`updateData` maps each absent input field to `undefined`, and
`birthdate: data.birthdate ? new Date(data.birthdate) : undefined` also maps a
present empty string (falsy) to `undefined`; drizzle-orm `.set` skips
`undefined` columns, leaving them unchanged.  Parsing and re-serialising a
well-formed ISO string is the identity in the string model. -/
def updateUserProfile (patch : ProfilePatch) (row : UserProfileRec) : UserProfileRec :=
  { row with
    name := patch.name.getD row.name
    height := patch.height.getD row.height
    birthdate := match patch.birthdate with
      | some b => if b = "" then row.birthdate else some b
      | none => row.birthdate }

/-- The effect of the server action `deleteMultipleWeightEntries`
(page.tsx lines 380..383) on the user's weight rows: no-op on an empty id
list, otherwise delete the rows whose id is in `ids` (`inArray`). -/
def deleteMultipleWeightEntries (ids : List String) (table : List WeightEntry) :
    List WeightEntry :=
  if ids.isEmpty then table
  else table.filter (fun e => ¬ ids.contains e.id)

end Db

/-- String-level model of the timestamp stored by `addGlucoseLog`
(part_000 lines 182..186, app-context.tsx lines 259..262):
`log.timestamp || formatISO(new Date())` where the input timestamp is absent
(`none`) or a string; a JS string is falsy exactly when it is empty. -/
def storedTimestamp (given : Option String) (now : String) : String :=
  match given with
  | none => now
  | some s => if s = "" then now else s

/-! ### Helper lemmas -/

theorem sorted_sortWeightDesc (l : List WeightEntry) : List.Sorted wLe (sortWeightDesc l) :=
  List.sorted_insertionSort wLe l

theorem sorted_sortGlucoseDesc (l : List GlucoseLog) : List.Sorted glLe (sortGlucoseDesc l) :=
  List.sorted_insertionSort glLe l

/-- Replacing the entry with a matching id preserves descending sortedness as
long as the replacement carries the same timestamp as the entry it replaces. -/
theorem sorted_replace_glucose {l : List GlucoseLog} {upd : GlucoseLog}
    (h : List.Sorted glLe l)
    (hts : ∀ x ∈ l, x.id = upd.id → upd.timestamp = x.timestamp) :
    List.Sorted glLe (l.map (fun x => if x.id = upd.id then upd else x)) := by
  rw [List.Sorted, List.pairwise_map]
  refine h.imp_of_mem ?_
  intro a b ha hb hab
  have hf : ∀ x ∈ l, (if x.id = upd.id then upd else x).timestamp = x.timestamp := by
    intro x hx
    by_cases hx1 : x.id = upd.id
    · simp [hx1, (hts x hx hx1).symm]
    · simp [hx1]
  show glLe _ _
  unfold glLe at hab ⊢
  rw [hf a ha, hf b hb]
  exact hab

/-- Weight counterpart of `sorted_replace_glucose`. -/
theorem sorted_replace_weight {l : List WeightEntry} {upd : WeightEntry}
    (h : List.Sorted wLe l)
    (hts : ∀ x ∈ l, x.id = upd.id → upd.date = x.date) :
    List.Sorted wLe (l.map (fun x => if x.id = upd.id then upd else x)) := by
  rw [List.Sorted, List.pairwise_map]
  refine h.imp_of_mem ?_
  intro a b ha hb hab
  have hf : ∀ x ∈ l, (if x.id = upd.id then upd else x).date = x.date := by
    intro x hx
    by_cases hx1 : x.id = upd.id
    · simp [hx1, (hts x hx hx1).symm]
    · simp [hx1]
  show wLe _ _
  unfold wLe at hab ⊢
  rw [hf a ha, hf b hb]
  exact hab

/-- `Array.prototype.find` returns the unique element satisfying the
predicate when there is exactly one. -/
theorem find?_eq_of_mem_unique {α : Type} {l : List α} {u : α} {p : α → Bool}
    (hu : u ∈ l) (hp : p u = true) (huniq : ∀ v ∈ l, p v = true → v = u) :
    l.find? p = some u := by
  induction l with
  | nil => cases hu
  | cons b tl ih =>
    by_cases hb : p b = true
    · have hbu : b = u := huniq b (List.mem_cons_self b tl) hb
      subst hbu
      simp [List.find?_cons, hb]
    · have hbu : b ≠ u := fun h => hb (h ▸ hp)
      have hu' : u ∈ tl := by
        rcases List.mem_cons.mp hu with h | h
        · exact absurd h.symm hbu
        · exact h
      have hb' : p b = false := by simpa using hb
      simp only [List.find?_cons, hb']
      exact ih hu' (fun v hv hpv => huniq v (List.mem_cons_of_mem b hv) hpv)

/-! ### Injectivity of the decimal representation used by the id templates -/

/-- Numeric value of a decimal digit character. -/
def digitVal (c : Char) : Nat := c.toNat - 48

theorem digitVal_digitChar : ∀ d < 10, digitVal (Nat.digitChar d) = d := by decide

/-- Value of a decimal digit string, most significant digit first. -/
def ofDigits : List Char → Nat
  | [] => 0
  | c :: cs => digitVal c * 10 ^ cs.length + ofDigits cs

theorem ofDigits_toDigitsCore :
    ∀ (fuel n : Nat) (ds : List Char), n < 10 ^ fuel →
      ofDigits (Nat.toDigitsCore 10 fuel n ds) = n * 10 ^ ds.length + ofDigits ds := by
  intro fuel
  induction fuel with
  | zero =>
    intro n ds h
    have hn : n = 0 := by simpa using Nat.lt_one_iff.mp (by simpa using h)
    subst hn
    simp [Nat.toDigitsCore]
  | succ f ih =>
    intro n ds h
    have hmod : n % 10 < 10 := Nat.mod_lt n (by norm_num)
    by_cases h0 : n / 10 = 0
    · have hn : n < 10 := by omega
      simp only [Nat.toDigitsCore, h0, if_true]
      show ofDigits (Nat.digitChar (n % 10) :: ds) = n * 10 ^ ds.length + ofDigits ds
      simp only [ofDigits, digitVal_digitChar (n % 10) hmod]
      have : n % 10 = n := Nat.mod_eq_of_lt hn
      rw [this]
    · have hdiv : n / 10 < 10 ^ f :=
        Nat.div_lt_of_lt_mul (by rw [← pow_succ']; exact h)
      simp only [Nat.toDigitsCore, h0, if_false]
      rw [ih (n / 10) (Nat.digitChar (n % 10) :: ds) hdiv]
      show n / 10 * 10 ^ (ds.length + 1) +
          (digitVal (Nat.digitChar (n % 10)) * 10 ^ ds.length + ofDigits ds) =
        n * 10 ^ ds.length + ofDigits ds
      rw [digitVal_digitChar (n % 10) hmod]
      have hn : 10 * (n / 10) + n % 10 = n := Nat.div_add_mod n 10
      have hmain : n / 10 * 10 ^ (ds.length + 1) + n % 10 * 10 ^ ds.length =
          n * 10 ^ ds.length := by
        calc n / 10 * 10 ^ (ds.length + 1) + n % 10 * 10 ^ ds.length
            = (10 * (n / 10) + n % 10) * 10 ^ ds.length := by ring
          _ = n * 10 ^ ds.length := by rw [hn]
      calc n / 10 * 10 ^ (ds.length + 1) + (n % 10 * 10 ^ ds.length + ofDigits ds)
          = n / 10 * 10 ^ (ds.length + 1) + n % 10 * 10 ^ ds.length + ofDigits ds := by ring
        _ = n * 10 ^ ds.length + ofDigits ds := by rw [hmain]

theorem ofDigits_toDigits (n : Nat) : ofDigits (Nat.toDigits 10 n) = n := by
  have h1 : n < 10 ^ n := Nat.lt_pow_self (by norm_num) n
  have h2 : (10 : Nat) ^ n ≤ 10 ^ (n + 1) := Nat.pow_le_pow_right (by norm_num) (Nat.le_succ n)
  have h := ofDigits_toDigitsCore (n + 1) n [] (lt_of_lt_of_le h1 h2)
  simpa [Nat.toDigits, ofDigits] using h

theorem natRepr_injective {m n : Nat} (h : Nat.repr m = Nat.repr n) : m = n := by
  have hdata : Nat.toDigits 10 m = Nat.toDigits 10 n := by
    have := congrArg String.data h
    simpa [Nat.repr, List.asString] using this
  have := congrArg ofDigits hdata
  simpa [ofDigits_toDigits] using this

theorem weightIdOf_injective {m n : Nat} (h : weightIdOf m = weightIdOf n) : m = n := by
  unfold weightIdOf at h
  have hdata := congrArg String.data h
  simp only [String.data_append] at hdata
  have hrepr : (Nat.repr m).data = (Nat.repr n).data :=
    List.append_inj_right hdata rfl
  exact natRepr_injective (by
    apply String.ext
    exact hrepr)

theorem glIdOf_injective {m n : Nat} (h : glIdOf m = glIdOf n) : m = n := by
  unfold glIdOf at h
  have hdata := congrArg String.data h
  simp only [String.data_append] at hdata
  have hrepr : (Nat.repr m).data = (Nat.repr n).data :=
    List.append_inj_right hdata rfl
  exact natRepr_injective (by
    apply String.ext
    exact hrepr)

/-! ### Concrete fixtures used by witnesses and counterexamples -/

def exURec : UserRec :=
  { id := "u1", name := "Alex", email := "alex@example.com", password := "pw1"
    birthdate := "1990-05-15", height := 175 }

def exUser : AppUser := { id := "u1", email := "alex@example.com", displayName := "Alex" }

def exMemNoUser : Mem.MemState :=
  { users := [exURec], weightStore := fun _ => [], glucoseStore := fun _ => []
    user := none, profile := none, weightHistory := [], glucoseLogs := []
    authState := AuthState.loggedOut }

def exMemUser : Mem.MemState :=
  { exMemNoUser with
    user := some exUser, profile := some exURec, authState := AuthState.loggedIn }

def exCtxNoUser : Ctx.CtxState :=
  { authState := AuthState.loggedOut, user := none, profile := none
    weightHistory := [], glucoseLogs := [] }

def exGlA : GlucoseLog :=
  { id := "a", timestamp := 10, mealType := MealType.Fasting, glycemia := 1, dosage := 1 }

def exGlB : GlucoseLog :=
  { id := "b", timestamp := 5, mealType := MealType.Lunch, glycemia := 2, dosage := 2 }

def exGlBUpd : GlucoseLog := { exGlB with timestamp := 20 }

def exWEntryA : WeightEntry := { id := "wa", date := 10, weight := 80 }

def exWEntryB : WeightEntry := { id := "wb", date := 5, weight := 81 }

def exCtxUser : Ctx.CtxState :=
  { authState := AuthState.loggedIn, user := some exUser, profile := none
    weightHistory := [exWEntryA, exWEntryB], glucoseLogs := [exGlA, exGlB] }

def exInput : GlucoseInput :=
  { mealType := MealType.Breakfast, glycemia := 1, dosage := 3, timestamp := none }

def exPatch : ProfilePatch := { name := some ("New"), birthdate := none, height := none }

def exRow : UserProfileRec :=
  { id := "u1", name := "Alex", email := "alex@example.com"
    birthdate := some ("1990-05-15"), height := 175 }

def exEmptyBirthPatch : ProfilePatch :=
  { name := none, birthdate := some (""), height := none }

/-! ### Claims -/

/-- C9: after `logout()` the presentation state container holds no user data:
`user` and `profile` are null, `weightHistory` and `glucoseLogs` are empty,
and the auth state is `loggedOut` — in both the in-memory and the SQL-backed
container. -/
theorem claim_C9 (s : Mem.MemState) (t : Ctx.CtxState) :
    (Mem.logout s).user = none ∧
    (Mem.logout s).profile = none ∧
    (Mem.logout s).weightHistory = [] ∧
    (Mem.logout s).glucoseLogs = [] ∧
    (Mem.logout s).authState = AuthState.loggedOut ∧
    (Ctx.logout t).user = none ∧
    (Ctx.logout t).profile = none ∧
    (Ctx.logout t).weightHistory = [] ∧
    (Ctx.logout t).glucoseLogs = [] ∧
    (Ctx.logout t).authState = AuthState.loggedOut :=
  ⟨rfl, rfl, rfl, rfl, rfl, rfl, rfl, rfl, rfl, rfl⟩

/-- C8: with no authenticated user (`user` is null), every mutation operation
of either state container fails with the "not authenticated" error; in the
embedding an `Except.error` result carries no successor state, and in the
source the throw is the first statement of each operation, so the failed call
leaves profile, weight history and glucose logs unchanged. -/
theorem claim_C8 (s : Mem.MemState) (t : Ctx.CtxState)
    (hs : s.user = none) (ht : t.user = none)
    (patch : ProfilePatch) (now : Nat) (w : Int) (entry : WeightEntry)
    (id : String) (ids : List String) (input : GlucoseInput) (log : GlucoseLog)
    (dbProfile : Option UserProfileRec) (nc ns : Nat) :
    Mem.updateProfileData patch s = Except.error ("User not authenticated.") ∧
    Mem.addWeightEntry now w s = Except.error ("User not authenticated.") ∧
    Mem.updateWeightEntry entry s = Except.error ("User not authenticated.") ∧
    Mem.deleteWeightEntry id s = Except.error ("User not authenticated.") ∧
    Mem.deleteMultipleWeightEntries ids s = Except.error ("User not authenticated.") ∧
    Mem.addGlucoseLog now input s = Except.error ("User not authenticated.") ∧
    Mem.updateGlucoseLog log s = Except.error ("User not authenticated.") ∧
    Mem.deleteGlucoseLog id s = Except.error ("User not authenticated.") ∧
    Mem.deleteMultipleGlucoseLogs ids s = Except.error ("User not authenticated.") ∧
    Ctx.updateProfile dbProfile t = Except.error ("User not authenticated.") ∧
    Ctx.addWeightEntry nc ns w t = Except.error ("User not authenticated.") ∧
    Ctx.updateWeightEntry entry t = Except.error ("User not authenticated.") ∧
    Ctx.deleteWeightEntry id t = Except.error ("User not authenticated.") ∧
    Ctx.deleteMultipleWeightEntries ids t = Except.error ("User not authenticated.") ∧
    Ctx.addGlucoseLog nc ns input t = Except.error ("User not authenticated.") ∧
    Ctx.updateGlucoseLog log t = Except.error ("User not authenticated.") ∧
    Ctx.deleteGlucoseLog id t = Except.error ("User not authenticated.") ∧
    Ctx.deleteMultipleGlucoseLogs ids t = Except.error ("User not authenticated.") := by
  refine ⟨?_, ?_, ?_, ?_, ?_, ?_, ?_, ?_, ?_, ?_, ?_, ?_, ?_, ?_, ?_, ?_, ?_, ?_⟩
  · simp [Mem.updateProfileData, hs]
  · simp [Mem.addWeightEntry, hs]
  · simp [Mem.updateWeightEntry, hs]
  · simp [Mem.deleteWeightEntry, hs]
  · simp [Mem.deleteMultipleWeightEntries, hs]
  · simp [Mem.addGlucoseLog, hs]
  · simp [Mem.updateGlucoseLog, hs]
  · simp [Mem.deleteGlucoseLog, hs]
  · simp [Mem.deleteMultipleGlucoseLogs, hs]
  · simp [Ctx.updateProfile, ht]
  · simp [Ctx.addWeightEntry, ht]
  · simp [Ctx.updateWeightEntry, ht]
  · simp [Ctx.deleteWeightEntry, ht]
  · simp [Ctx.deleteMultipleWeightEntries, ht]
  · simp [Ctx.addGlucoseLog, ht]
  · simp [Ctx.updateGlucoseLog, ht]
  · simp [Ctx.deleteGlucoseLog, ht]
  · simp [Ctx.deleteMultipleGlucoseLogs, ht]

/-- Witness for C8 at a concrete logged-out state of each container. -/
theorem claim_C8_witness :
    Mem.updateProfileData exPatch exMemNoUser = Except.error ("User not authenticated.") ∧
    Mem.addWeightEntry 5 80 exMemNoUser = Except.error ("User not authenticated.") ∧
    Mem.updateWeightEntry exWEntryA exMemNoUser = Except.error ("User not authenticated.") ∧
    Mem.deleteWeightEntry ("wa") exMemNoUser = Except.error ("User not authenticated.") ∧
    Mem.deleteMultipleWeightEntries ["wa"] exMemNoUser =
      Except.error ("User not authenticated.") ∧
    Mem.addGlucoseLog 5 exInput exMemNoUser = Except.error ("User not authenticated.") ∧
    Mem.updateGlucoseLog exGlA exMemNoUser = Except.error ("User not authenticated.") ∧
    Mem.deleteGlucoseLog ("wa") exMemNoUser = Except.error ("User not authenticated.") ∧
    Mem.deleteMultipleGlucoseLogs ["wa"] exMemNoUser =
      Except.error ("User not authenticated.") ∧
    Ctx.updateProfile none exCtxNoUser = Except.error ("User not authenticated.") ∧
    Ctx.addWeightEntry 1 2 80 exCtxNoUser = Except.error ("User not authenticated.") ∧
    Ctx.updateWeightEntry exWEntryA exCtxNoUser = Except.error ("User not authenticated.") ∧
    Ctx.deleteWeightEntry ("wa") exCtxNoUser = Except.error ("User not authenticated.") ∧
    Ctx.deleteMultipleWeightEntries ["wa"] exCtxNoUser =
      Except.error ("User not authenticated.") ∧
    Ctx.addGlucoseLog 1 2 exInput exCtxNoUser = Except.error ("User not authenticated.") ∧
    Ctx.updateGlucoseLog exGlA exCtxNoUser = Except.error ("User not authenticated.") ∧
    Ctx.deleteGlucoseLog ("wa") exCtxNoUser = Except.error ("User not authenticated.") ∧
    Ctx.deleteMultipleGlucoseLogs ["wa"] exCtxNoUser =
      Except.error ("User not authenticated.") :=
  claim_C8 exMemNoUser exCtxNoUser rfl rfl exPatch 5 80 exWEntryA ("wa") ["wa"]
    exInput exGlA none 1 2

/-- C10: `addGlucoseLog` stores a supplied (non-empty) timestamp unchanged and
falls back to the current time when the timestamp is absent; at the string
level `log.timestamp || formatISO(new Date())` also treats the empty string
(the only falsy string) the same as absent. -/
theorem claim_C10 (idNow tsNow t : Nat) (input : GlucoseInput)
    (s now : String) (h : s ≠ "") :
    (newGlucoseLog idNow tsNow { input with timestamp := some t }).timestamp = t ∧
    (newGlucoseLog idNow tsNow { input with timestamp := none }).timestamp = tsNow ∧
    storedTimestamp (some s) now = s ∧
    storedTimestamp none now = now ∧
    storedTimestamp (some ("")) now = now :=
  ⟨rfl, rfl, by simp [storedTimestamp, h], rfl, rfl⟩

/-- Witness for C10 at concrete clock values and a concrete timestamp string. -/
theorem claim_C10_witness :
    (newGlucoseLog 1 2 { exInput with timestamp := some 3 }).timestamp = 3 ∧
    (newGlucoseLog 1 2 { exInput with timestamp := none }).timestamp = 2 ∧
    storedTimestamp (some "2024-01-10T08:00:00Z") "now" = "2024-01-10T08:00:00Z" ∧
    storedTimestamp none "now" = "now" ∧
    storedTimestamp (some ("")) "now" = "now" :=
  claim_C10 1 2 3 exInput ("2024-01-10T08:00:00Z") ("now") (by decide)

/-- C5: when a user with email `e` already exists, `signup(e, password, name)`
always fails with the duplicate-account error; the throw precedes every
mutation, so no new user is created (an `Except.error` result carries no
successor state). -/
theorem claim_C5 (now : Nat) (email password name : String)
    (seedW : List WeightEntry) (seedG : List GlucoseLog) (s : Mem.MemState)
    (u : UserRec) (hu : u ∈ s.users) (he : u.email = email) :
    Mem.signup now email password name seedW seedG s =
      Except.error ("An account with this email already exists.") := by
  have hany : s.users.any (fun v => v.email = email) = true :=
    List.any_eq_true.mpr ⟨u, hu, by simp [he]⟩
  simp [Mem.signup, hany]

/-- Witness for C5: signing up again with the email of the stored user fails. -/
theorem claim_C5_witness :
    Mem.signup 7 ("alex@example.com") ("pw2") ("Other") [] [] exMemNoUser =
      Except.error ("An account with this email already exists.") :=
  claim_C5 7 ("alex@example.com") ("pw2") ("Other") [] [] exMemNoUser exURec
    (by simp [exMemNoUser]) (by simp [exURec])

/-- C6: for a registered user with email `e` and stored password `p`, and any
`q ≠ p`, `login(e, q)` always fails with the invalid-credentials error; the
throw precedes every mutation, so no session is established. -/
theorem claim_C6 (email q : String)
    (seedW : List WeightEntry) (seedG : List GlucoseLog) (s : Mem.MemState)
    (u : UserRec) (hu : u ∈ s.users) (he : u.email = email)
    (huniq : ∀ v ∈ s.users, v.email = email → v = u)
    (hq : q ≠ u.password) :
    Mem.login email q seedW seedG s = Except.error ("Invalid email or password.") := by
  have hfind : s.users.find? (fun v => v.email = email) = some u :=
    find?_eq_of_mem_unique hu (by simp [he])
      (fun v hv hpv => huniq v hv (by simpa using hpv))
  have hne : u.password ≠ q := fun h => hq h.symm
  simp [Mem.login, hfind, hne]

/-- Witness for C6: logging in with a wrong password for the stored user
fails. -/
theorem claim_C6_witness :
    Mem.login ("alex@example.com") ("wrong") [] [] exMemNoUser =
      Except.error ("Invalid email or password.") :=
  claim_C6 ("alex@example.com") ("wrong") [] [] exMemNoUser exURec
    (by simp [exMemNoUser]) (by simp [exURec])
    (by intro v hv hev; simpa [exMemNoUser] using hv)
    (by simp [exURec])

/-- C3: `deleteMany(ids)` removes exactly the entries whose id is in `ids`:
membership in the resulting collection holds exactly for the previous entries
(unchanged) whose id is not in `ids`.  Covers the SQL-backed container update
for both ledgers and the db-actions bulk delete on the weight table. -/
theorem claim_C3 :
    (∀ (ids : List String) (s : Ctx.CtxState) (u : AppUser), s.user = some u →
      ∃ s', Ctx.deleteMultipleGlucoseLogs ids s = Except.ok s' ∧
        ∀ log : GlucoseLog, log ∈ s'.glucoseLogs ↔ log ∈ s.glucoseLogs ∧ log.id ∉ ids) ∧
    (∀ (ids : List String) (s : Ctx.CtxState) (u : AppUser), s.user = some u →
      ∃ s', Ctx.deleteMultipleWeightEntries ids s = Except.ok s' ∧
        ∀ e : WeightEntry, e ∈ s'.weightHistory ↔ e ∈ s.weightHistory ∧ e.id ∉ ids) ∧
    (∀ (ids : List String) (table : List WeightEntry) (e : WeightEntry),
      e ∈ Db.deleteMultipleWeightEntries ids table ↔ e ∈ table ∧ e.id ∉ ids) := by
  refine ⟨?_, ?_, ?_⟩
  · intro ids s u hu
    refine ⟨{ s with glucoseLogs :=
        s.glucoseLogs.filter (fun log => ¬ ids.contains log.id) }, ?_, ?_⟩
    · simp [Ctx.deleteMultipleGlucoseLogs, hu]
    · intro log
      simp [List.mem_filter]
  · intro ids s u hu
    refine ⟨{ s with weightHistory :=
        s.weightHistory.filter (fun entry => ¬ ids.contains entry.id) }, ?_, ?_⟩
    · simp [Ctx.deleteMultipleWeightEntries, hu]
    · intro e
      simp [List.mem_filter]
  · intro ids table e
    by_cases hids : ids.isEmpty
    · have : ids = [] := List.isEmpty_iff.mp hids
      subst this
      simp [Db.deleteMultipleWeightEntries]
    · simp only [Db.deleteMultipleWeightEntries, hids, if_false]
      simp [List.mem_filter]

/-- Witness for C3 on a concrete two-entry state, deleting one id. -/
theorem claim_C3_witness :
    (∃ s', Ctx.deleteMultipleGlucoseLogs ["b"] exCtxUser = Except.ok s' ∧
      ∀ log : GlucoseLog,
        log ∈ s'.glucoseLogs ↔ log ∈ exCtxUser.glucoseLogs ∧ log.id ∉ ["b"]) ∧
    (∃ s', Ctx.deleteMultipleWeightEntries ["wb"] exCtxUser = Except.ok s' ∧
      ∀ e : WeightEntry,
        e ∈ s'.weightHistory ↔ e ∈ exCtxUser.weightHistory ∧ e.id ∉ ["wb"]) ∧
    (∀ e : WeightEntry,
      e ∈ Db.deleteMultipleWeightEntries ["wa"] [exWEntryA, exWEntryB] ↔
        e ∈ [exWEntryA, exWEntryB] ∧ e.id ∉ ["wa"]) :=
  ⟨claim_C3.1 ["b"] exCtxUser exUser rfl,
   claim_C3.2.1 ["wb"] exCtxUser exUser rfl,
   claim_C3.2.2 ["wa"] [exWEntryA, exWEntryB]⟩

/-- C4 (amended): `updateProfile` sets exactly the supplied fields and leaves
unsupplied fields (and the identity fields) unchanged — fully so in the
in-memory spread-merge variant; in the SQL-backed `updateUserProfile`, name
and height behave that way, but a supplied empty-string birthdate is falsy,
becomes `undefined` in the update set, and leaves the stored birthdate
unchanged (a supplied non-empty birthdate is stored). -/
theorem claim_C4 :
    (∀ (u : UserRec) (p : ProfilePatch) (n : String),
      p.name = some n → (applyPatch u p).name = n) ∧
    (∀ (u : UserRec) (p : ProfilePatch),
      p.name = none → (applyPatch u p).name = u.name) ∧
    (∀ (u : UserRec) (p : ProfilePatch) (b : String),
      p.birthdate = some b → (applyPatch u p).birthdate = b) ∧
    (∀ (u : UserRec) (p : ProfilePatch),
      p.birthdate = none → (applyPatch u p).birthdate = u.birthdate) ∧
    (∀ (u : UserRec) (p : ProfilePatch) (h : Int),
      p.height = some h → (applyPatch u p).height = h) ∧
    (∀ (u : UserRec) (p : ProfilePatch),
      p.height = none → (applyPatch u p).height = u.height) ∧
    (∀ (u : UserRec) (p : ProfilePatch),
      (applyPatch u p).id = u.id ∧ (applyPatch u p).email = u.email ∧
        (applyPatch u p).password = u.password) ∧
    (∀ (patch : ProfilePatch) (s : Mem.MemState) (u : AppUser), s.user = some u →
      ∃ s', Mem.updateProfileData patch s = Except.ok s' ∧
        s'.profile = s.profile.map (fun p => applyPatch p patch)) ∧
    (∀ (r : UserProfileRec) (p : ProfilePatch) (n : String),
      p.name = some n → (Db.updateUserProfile p r).name = n) ∧
    (∀ (r : UserProfileRec) (p : ProfilePatch),
      p.name = none → (Db.updateUserProfile p r).name = r.name) ∧
    (∀ (r : UserProfileRec) (p : ProfilePatch) (h : Int),
      p.height = some h → (Db.updateUserProfile p r).height = h) ∧
    (∀ (r : UserProfileRec) (p : ProfilePatch),
      p.height = none → (Db.updateUserProfile p r).height = r.height) ∧
    (∀ (r : UserProfileRec) (p : ProfilePatch) (b : String),
      p.birthdate = some b → b ≠ "" → (Db.updateUserProfile p r).birthdate = some b) ∧
    (∀ (r : UserProfileRec) (p : ProfilePatch),
      p.birthdate = none → (Db.updateUserProfile p r).birthdate = r.birthdate) ∧
    (∀ (r : UserProfileRec) (p : ProfilePatch),
      p.birthdate = some ("") → (Db.updateUserProfile p r).birthdate = r.birthdate) ∧
    (∀ (r : UserProfileRec) (p : ProfilePatch),
      (Db.updateUserProfile p r).id = r.id ∧ (Db.updateUserProfile p r).email = r.email) := by
  refine ⟨?_, ?_, ?_, ?_, ?_, ?_, ?_, ?_, ?_, ?_, ?_, ?_, ?_, ?_, ?_, ?_⟩
  · intro u p n hn; simp [applyPatch, hn]
  · intro u p hn; simp [applyPatch, hn]
  · intro u p b hb; simp [applyPatch, hb]
  · intro u p hb; simp [applyPatch, hb]
  · intro u p h hh; simp [applyPatch, hh]
  · intro u p hh; simp [applyPatch, hh]
  · intro u p; exact ⟨rfl, rfl, rfl⟩
  · intro patch s u hu
    refine ⟨{ s with
        users := s.users.map (fun x => if x.id = u.id then applyPatch x patch else x)
        profile := s.profile.map (fun p => applyPatch p patch) }, ?_, rfl⟩
    simp [Mem.updateProfileData, hu]
  · intro r p n hn; simp [Db.updateUserProfile, hn]
  · intro r p hn; simp [Db.updateUserProfile, hn]
  · intro r p h hh; simp [Db.updateUserProfile, hh]
  · intro r p hh; simp [Db.updateUserProfile, hh]
  · intro r p b hb hne; simp [Db.updateUserProfile, hb, hne]
  · intro r p hb; simp [Db.updateUserProfile, hb]
  · intro r p hb; simp [Db.updateUserProfile, hb]
  · intro r p; exact ⟨rfl, rfl⟩

/-- Counterexample to C4 as stated: in the SQL-backed `updateUserProfile`, the
supplied field `birthdate = ""` is not set to its new value; the stored
birthdate remains the previous one. -/
theorem claim_C4_counterexample :
    exEmptyBirthPatch.birthdate = some ("") ∧
    (Db.updateUserProfile exEmptyBirthPatch exRow).birthdate = some ("1990-05-15") ∧
    (Db.updateUserProfile exEmptyBirthPatch exRow).birthdate ≠ some ("") := by
  refine ⟨rfl, rfl, ?_⟩
  decide

/-- Witness for C4 at concrete records and patches. -/
theorem claim_C4_witness :
    (applyPatch exURec exPatch).name = "New" ∧
    (applyPatch exURec exPatch).birthdate = exURec.birthdate ∧
    (applyPatch exURec exPatch).height = exURec.height ∧
    (applyPatch exURec { exPatch with birthdate := some ("1991-01-01") }).birthdate =
      "1991-01-01" ∧
    (applyPatch exURec { exPatch with height := some 180 }).height = 180 ∧
    (applyPatch exURec { exPatch with name := none }).name = exURec.name ∧
    (∃ s', Mem.updateProfileData exPatch exMemUser = Except.ok s' ∧
      s'.profile = exMemUser.profile.map (fun p => applyPatch p exPatch)) ∧
    (Db.updateUserProfile exPatch exRow).name = "New" ∧
    (Db.updateUserProfile exPatch exRow).height = exRow.height ∧
    (Db.updateUserProfile { exPatch with name := none } exRow).name = exRow.name ∧
    (Db.updateUserProfile { exPatch with height := some 180 } exRow).height = 180 ∧
    (Db.updateUserProfile { exPatch with birthdate := some ("1991-01-01") } exRow).birthdate =
      some ("1991-01-01") ∧
    (Db.updateUserProfile exPatch exRow).birthdate = exRow.birthdate ∧
    (Db.updateUserProfile exEmptyBirthPatch exRow).birthdate = exRow.birthdate :=
  ⟨claim_C4.1 exURec exPatch ("New") rfl,
   claim_C4.2.2.2.1 exURec exPatch rfl,
   claim_C4.2.2.2.2.2.1 exURec exPatch rfl,
   claim_C4.2.2.1 exURec { exPatch with birthdate := some ("1991-01-01") } ("1991-01-01") rfl,
   claim_C4.2.2.2.2.1 exURec { exPatch with height := some 180 } 180 rfl,
   claim_C4.2.1 exURec { exPatch with name := none } rfl,
   claim_C4.2.2.2.2.2.2.2.1 exPatch exMemUser exUser rfl,
   claim_C4.2.2.2.2.2.2.2.2.1 exRow exPatch ("New") rfl,
   claim_C4.2.2.2.2.2.2.2.2.2.2.2.1 exRow exPatch rfl,
   claim_C4.2.2.2.2.2.2.2.2.2.1 exRow { exPatch with name := none } rfl,
   claim_C4.2.2.2.2.2.2.2.2.2.2.1 exRow { exPatch with height := some 180 } 180 rfl,
   claim_C4.2.2.2.2.2.2.2.2.2.2.2.2.1 exRow
     { exPatch with birthdate := some ("1991-01-01") } ("1991-01-01") rfl (by decide),
   claim_C4.2.2.2.2.2.2.2.2.2.2.2.2.2.1 exRow exPatch rfl,
   claim_C4.2.2.2.2.2.2.2.2.2.2.2.2.2.2.1 exRow exEmptyBirthPatch rfl⟩

def exWAUpd : WeightEntry := { exWEntryA with weight := 99 }

def exGlAUpd : GlucoseLog := { exGlA with dosage := 9 }

/-- C1 (amended): every ledger operation of the in-memory container re-sorts,
so the presented collection is always sorted descending; in the SQL-backed
container, add re-sorts and delete / deleteMany preserve descending order,
but update replaces the entry in place without re-sorting, so sortedness is
guaranteed only when the updated entry keeps its date/timestamp. -/
theorem claim_C1 :
    (∀ (now : Nat) (w : Int) (s : Mem.MemState) (u : AppUser), s.user = some u →
      ∃ s', Mem.addWeightEntry now w s = Except.ok s' ∧
        List.Sorted wLe s'.weightHistory) ∧
    (∀ (e : WeightEntry) (s : Mem.MemState) (u : AppUser), s.user = some u →
      ∃ s', Mem.updateWeightEntry e s = Except.ok s' ∧
        List.Sorted wLe s'.weightHistory) ∧
    (∀ (i : String) (s : Mem.MemState) (u : AppUser), s.user = some u →
      ∃ s', Mem.deleteWeightEntry i s = Except.ok s' ∧
        List.Sorted wLe s'.weightHistory) ∧
    (∀ (ids : List String) (s : Mem.MemState) (u : AppUser), s.user = some u →
      ∃ s', Mem.deleteMultipleWeightEntries ids s = Except.ok s' ∧
        List.Sorted wLe s'.weightHistory) ∧
    (∀ (now : Nat) (inp : GlucoseInput) (s : Mem.MemState) (u : AppUser), s.user = some u →
      ∃ s', Mem.addGlucoseLog now inp s = Except.ok s' ∧
        List.Sorted glLe s'.glucoseLogs) ∧
    (∀ (l : GlucoseLog) (s : Mem.MemState) (u : AppUser), s.user = some u →
      ∃ s', Mem.updateGlucoseLog l s = Except.ok s' ∧
        List.Sorted glLe s'.glucoseLogs) ∧
    (∀ (i : String) (s : Mem.MemState) (u : AppUser), s.user = some u →
      ∃ s', Mem.deleteGlucoseLog i s = Except.ok s' ∧
        List.Sorted glLe s'.glucoseLogs) ∧
    (∀ (ids : List String) (s : Mem.MemState) (u : AppUser), s.user = some u →
      ∃ s', Mem.deleteMultipleGlucoseLogs ids s = Except.ok s' ∧
        List.Sorted glLe s'.glucoseLogs) ∧
    (∀ (nc ns : Nat) (w : Int) (s : Ctx.CtxState) (u : AppUser), s.user = some u →
      ∃ s', Ctx.addWeightEntry nc ns w s = Except.ok s' ∧
        List.Sorted wLe s'.weightHistory) ∧
    (∀ (nc ns : Nat) (inp : GlucoseInput) (s : Ctx.CtxState) (u : AppUser),
      s.user = some u →
      ∃ s', Ctx.addGlucoseLog nc ns inp s = Except.ok s' ∧
        List.Sorted glLe s'.glucoseLogs) ∧
    (∀ (i : String) (s : Ctx.CtxState) (u : AppUser), s.user = some u →
      List.Sorted wLe s.weightHistory →
      ∃ s', Ctx.deleteWeightEntry i s = Except.ok s' ∧
        List.Sorted wLe s'.weightHistory) ∧
    (∀ (ids : List String) (s : Ctx.CtxState) (u : AppUser), s.user = some u →
      List.Sorted wLe s.weightHistory →
      ∃ s', Ctx.deleteMultipleWeightEntries ids s = Except.ok s' ∧
        List.Sorted wLe s'.weightHistory) ∧
    (∀ (i : String) (s : Ctx.CtxState) (u : AppUser), s.user = some u →
      List.Sorted glLe s.glucoseLogs →
      ∃ s', Ctx.deleteGlucoseLog i s = Except.ok s' ∧
        List.Sorted glLe s'.glucoseLogs) ∧
    (∀ (ids : List String) (s : Ctx.CtxState) (u : AppUser), s.user = some u →
      List.Sorted glLe s.glucoseLogs →
      ∃ s', Ctx.deleteMultipleGlucoseLogs ids s = Except.ok s' ∧
        List.Sorted glLe s'.glucoseLogs) ∧
    (∀ (e : WeightEntry) (s : Ctx.CtxState) (u : AppUser), s.user = some u →
      List.Sorted wLe s.weightHistory →
      (∀ x ∈ s.weightHistory, x.id = e.id → e.date = x.date) →
      ∃ s', Ctx.updateWeightEntry e s = Except.ok s' ∧
        List.Sorted wLe s'.weightHistory) ∧
    (∀ (l : GlucoseLog) (s : Ctx.CtxState) (u : AppUser), s.user = some u →
      List.Sorted glLe s.glucoseLogs →
      (∀ x ∈ s.glucoseLogs, x.id = l.id → l.timestamp = x.timestamp) →
      ∃ s', Ctx.updateGlucoseLog l s = Except.ok s' ∧
        List.Sorted glLe s'.glucoseLogs) := by
  refine ⟨?_, ?_, ?_, ?_, ?_, ?_, ?_, ?_, ?_, ?_, ?_, ?_, ?_, ?_, ?_, ?_⟩
  · intro now w s u hu
    simp only [Mem.addWeightEntry, hu]
    exact ⟨_, rfl, sorted_sortWeightDesc _⟩
  · intro e s u hu
    simp only [Mem.updateWeightEntry, hu]
    exact ⟨_, rfl, sorted_sortWeightDesc _⟩
  · intro i s u hu
    simp only [Mem.deleteWeightEntry, hu]
    exact ⟨_, rfl, sorted_sortWeightDesc _⟩
  · intro ids s u hu
    simp only [Mem.deleteMultipleWeightEntries, hu]
    exact ⟨_, rfl, sorted_sortWeightDesc _⟩
  · intro now inp s u hu
    simp only [Mem.addGlucoseLog, hu]
    exact ⟨_, rfl, sorted_sortGlucoseDesc _⟩
  · intro l s u hu
    simp only [Mem.updateGlucoseLog, hu]
    exact ⟨_, rfl, sorted_sortGlucoseDesc _⟩
  · intro i s u hu
    simp only [Mem.deleteGlucoseLog, hu]
    exact ⟨_, rfl, sorted_sortGlucoseDesc _⟩
  · intro ids s u hu
    simp only [Mem.deleteMultipleGlucoseLogs, hu]
    exact ⟨_, rfl, sorted_sortGlucoseDesc _⟩
  · intro nc ns w s u hu
    simp only [Ctx.addWeightEntry, hu]
    exact ⟨_, rfl, sorted_sortWeightDesc _⟩
  · intro nc ns inp s u hu
    simp only [Ctx.addGlucoseLog, hu]
    exact ⟨_, rfl, sorted_sortGlucoseDesc _⟩
  · intro i s u hu hsort
    simp only [Ctx.deleteWeightEntry, hu]
    exact ⟨_, rfl, List.Sorted.filter _ hsort⟩
  · intro ids s u hu hsort
    simp only [Ctx.deleteMultipleWeightEntries, hu]
    exact ⟨_, rfl, List.Sorted.filter _ hsort⟩
  · intro i s u hu hsort
    simp only [Ctx.deleteGlucoseLog, hu]
    exact ⟨_, rfl, List.Sorted.filter _ hsort⟩
  · intro ids s u hu hsort
    simp only [Ctx.deleteMultipleGlucoseLogs, hu]
    exact ⟨_, rfl, List.Sorted.filter _ hsort⟩
  · intro e s u hu hsort hts
    simp only [Ctx.updateWeightEntry, hu]
    exact ⟨_, rfl, sorted_replace_weight hsort hts⟩
  · intro l s u hu hsort hts
    simp only [Ctx.updateGlucoseLog, hu]
    exact ⟨_, rfl, sorted_replace_glucose hsort hts⟩

/-- Counterexample to C1 as stated: starting from a sorted glucose list in the
SQL-backed container, `updateGlucoseLog` with a changed timestamp replaces the
entry in place and the resulting list is no longer sorted descending. -/
theorem claim_C1_counterexample :
    List.Sorted glLe exCtxUser.glucoseLogs ∧
    exGlBUpd.id = exGlB.id ∧ exGlBUpd.timestamp ≠ exGlB.timestamp ∧
    Ctx.updateGlucoseLog exGlBUpd exCtxUser =
      Except.ok { exCtxUser with glucoseLogs := [exGlA, exGlBUpd] } ∧
    ¬ List.Sorted glLe [exGlA, exGlBUpd] := by
  refine ⟨by decide, rfl, by decide, rfl, by decide⟩

/-- Witness for C1 at a concrete logged-in state of each container. -/
theorem claim_C1_witness :
    (∃ s', Mem.addWeightEntry 5 80 exMemUser = Except.ok s' ∧
      List.Sorted wLe s'.weightHistory) ∧
    (∃ s', Mem.updateWeightEntry exWEntryA exMemUser = Except.ok s' ∧
      List.Sorted wLe s'.weightHistory) ∧
    (∃ s', Mem.deleteWeightEntry ("wa") exMemUser = Except.ok s' ∧
      List.Sorted wLe s'.weightHistory) ∧
    (∃ s', Mem.deleteMultipleWeightEntries ["wa"] exMemUser = Except.ok s' ∧
      List.Sorted wLe s'.weightHistory) ∧
    (∃ s', Mem.addGlucoseLog 5 exInput exMemUser = Except.ok s' ∧
      List.Sorted glLe s'.glucoseLogs) ∧
    (∃ s', Mem.updateGlucoseLog exGlA exMemUser = Except.ok s' ∧
      List.Sorted glLe s'.glucoseLogs) ∧
    (∃ s', Mem.deleteGlucoseLog ("a") exMemUser = Except.ok s' ∧
      List.Sorted glLe s'.glucoseLogs) ∧
    (∃ s', Mem.deleteMultipleGlucoseLogs ["a"] exMemUser = Except.ok s' ∧
      List.Sorted glLe s'.glucoseLogs) ∧
    (∃ s', Ctx.addWeightEntry 1 2 80 exCtxUser = Except.ok s' ∧
      List.Sorted wLe s'.weightHistory) ∧
    (∃ s', Ctx.addGlucoseLog 1 2 exInput exCtxUser = Except.ok s' ∧
      List.Sorted glLe s'.glucoseLogs) ∧
    (∃ s', Ctx.deleteWeightEntry ("wa") exCtxUser = Except.ok s' ∧
      List.Sorted wLe s'.weightHistory) ∧
    (∃ s', Ctx.deleteMultipleWeightEntries ["wa"] exCtxUser = Except.ok s' ∧
      List.Sorted wLe s'.weightHistory) ∧
    (∃ s', Ctx.deleteGlucoseLog ("a") exCtxUser = Except.ok s' ∧
      List.Sorted glLe s'.glucoseLogs) ∧
    (∃ s', Ctx.deleteMultipleGlucoseLogs ["a"] exCtxUser = Except.ok s' ∧
      List.Sorted glLe s'.glucoseLogs) ∧
    (∃ s', Ctx.updateWeightEntry exWAUpd exCtxUser = Except.ok s' ∧
      List.Sorted wLe s'.weightHistory) ∧
    (∃ s', Ctx.updateGlucoseLog exGlAUpd exCtxUser = Except.ok s' ∧
      List.Sorted glLe s'.glucoseLogs) :=
  ⟨claim_C1.1 5 80 exMemUser exUser rfl,
   claim_C1.2.1 exWEntryA exMemUser exUser rfl,
   claim_C1.2.2.1 ("wa") exMemUser exUser rfl,
   claim_C1.2.2.2.1 ["wa"] exMemUser exUser rfl,
   claim_C1.2.2.2.2.1 5 exInput exMemUser exUser rfl,
   claim_C1.2.2.2.2.2.1 exGlA exMemUser exUser rfl,
   claim_C1.2.2.2.2.2.2.1 ("a") exMemUser exUser rfl,
   claim_C1.2.2.2.2.2.2.2.1 ["a"] exMemUser exUser rfl,
   claim_C1.2.2.2.2.2.2.2.2.1 1 2 80 exCtxUser exUser rfl,
   claim_C1.2.2.2.2.2.2.2.2.2.1 1 2 exInput exCtxUser exUser rfl,
   claim_C1.2.2.2.2.2.2.2.2.2.2.1 ("wa") exCtxUser exUser rfl (by decide),
   claim_C1.2.2.2.2.2.2.2.2.2.2.2.1 ["wa"] exCtxUser exUser rfl (by decide),
   claim_C1.2.2.2.2.2.2.2.2.2.2.2.2.1 ("a") exCtxUser exUser rfl (by decide),
   claim_C1.2.2.2.2.2.2.2.2.2.2.2.2.2.1 ["a"] exCtxUser exUser rfl (by decide),
   claim_C1.2.2.2.2.2.2.2.2.2.2.2.2.2.2.1 exWAUpd exCtxUser exUser rfl (by decide)
     (by decide),
   claim_C1.2.2.2.2.2.2.2.2.2.2.2.2.2.2.2 exGlAUpd exCtxUser exUser rfl (by decide)
     (by decide)⟩

/-- Helper: the exact successor state produced by a successful
`Mem.addWeightEntry`. -/
theorem mem_addWeightEntry_ok (now : Nat) (w : Int) {s : Mem.MemState} {u : AppUser}
    (hu : s.user = some u) :
    Mem.addWeightEntry now w s = Except.ok
      { s with
        weightStore := fun uid =>
          if uid = u.id then
            sortWeightDesc (WeightEntry.mk (weightIdOf now) now w :: s.weightStore u.id)
          else s.weightStore uid
        weightHistory :=
          sortWeightDesc (WeightEntry.mk (weightIdOf now) now w :: s.weightStore u.id) } := by
  simp [Mem.addWeightEntry, hu]

/-- C2: after `add` the new entry (with its generated id) is in the presented
list and the list is sorted descending; adding an entry at a later time `t1`
and then one at an earlier time `t2` (the 2024-01-10 / 2024-01-05 example)
yields the later entry first and the earlier entry second. -/
theorem claim_C2 :
    (∀ (now : Nat) (w : Int) (s : Mem.MemState) (u : AppUser), s.user = some u →
      ∃ s', Mem.addWeightEntry now w s = Except.ok s' ∧
        WeightEntry.mk (weightIdOf now) now w ∈ s'.weightHistory ∧
        List.Sorted wLe s'.weightHistory) ∧
    (∀ (nc ns : Nat) (w : Int) (s : Ctx.CtxState) (u : AppUser), s.user = some u →
      ∃ s', Ctx.addWeightEntry nc ns w s = Except.ok s' ∧
        WeightEntry.mk (weightIdOf ns) nc w ∈ s'.weightHistory ∧
        List.Sorted wLe s'.weightHistory) ∧
    (∀ (now : Nat) (inp : GlucoseInput) (s : Mem.MemState) (u : AppUser),
      s.user = some u →
      ∃ s', Mem.addGlucoseLog now inp s = Except.ok s' ∧
        newGlucoseLog now now inp ∈ s'.glucoseLogs ∧
        List.Sorted glLe s'.glucoseLogs) ∧
    (∀ (t1 t2 : Nat) (w1 w2 : Int) (s : Mem.MemState) (u : AppUser),
      s.user = some u → s.weightStore u.id = [] → t2 < t1 →
      ∃ s1 s2, Mem.addWeightEntry t1 w1 s = Except.ok s1 ∧
        Mem.addWeightEntry t2 w2 s1 = Except.ok s2 ∧
        s2.weightHistory =
          [WeightEntry.mk (weightIdOf t1) t1 w1, WeightEntry.mk (weightIdOf t2) t2 w2]) := by
  refine ⟨?_, ?_, ?_, ?_⟩
  · intro now w s u hu
    simp only [Mem.addWeightEntry, hu]
    refine ⟨_, rfl, ?_, sorted_sortWeightDesc _⟩
    simp [sortWeightDesc]
  · intro nc ns w s u hu
    simp only [Ctx.addWeightEntry, hu]
    refine ⟨_, rfl, ?_, sorted_sortWeightDesc _⟩
    simp [sortWeightDesc]
  · intro now inp s u hu
    simp only [Mem.addGlucoseLog, hu]
    refine ⟨_, rfl, ?_, sorted_sortGlucoseDesc _⟩
    simp [sortGlucoseDesc]
  · intro t1 t2 w1 w2 s u hu hempty hlt
    refine ⟨_, _, mem_addWeightEntry_ok t1 w1 hu, mem_addWeightEntry_ok t2 w2 hu, ?_⟩
    have hn : ¬ wLe (WeightEntry.mk (weightIdOf t2) t2 w2)
        (WeightEntry.mk (weightIdOf t1) t1 w1) := by
      simp only [wLe]
      omega
    simp [hempty, sortWeightDesc, hn]

/-- Witness for C2: both adds at a concrete logged-in state, and the example
with the later time 10 followed by the earlier time 5. -/
theorem claim_C2_witness :
    (∃ s', Mem.addWeightEntry 5 80 exMemUser = Except.ok s' ∧
      WeightEntry.mk (weightIdOf 5) 5 80 ∈ s'.weightHistory ∧
      List.Sorted wLe s'.weightHistory) ∧
    (∃ s', Ctx.addWeightEntry 1 2 80 exCtxUser = Except.ok s' ∧
      WeightEntry.mk (weightIdOf 2) 1 80 ∈ s'.weightHistory ∧
      List.Sorted wLe s'.weightHistory) ∧
    (∃ s', Mem.addGlucoseLog 5 exInput exMemUser = Except.ok s' ∧
      newGlucoseLog 5 5 exInput ∈ s'.glucoseLogs ∧
      List.Sorted glLe s'.glucoseLogs) ∧
    (∃ s1 s2, Mem.addWeightEntry 10 80 exMemUser = Except.ok s1 ∧
      Mem.addWeightEntry 5 81 s1 = Except.ok s2 ∧
      s2.weightHistory =
        [WeightEntry.mk (weightIdOf 10) 10 80, WeightEntry.mk (weightIdOf 5) 5 81]) :=
  ⟨claim_C2.1 5 80 exMemUser exUser rfl,
   claim_C2.2.1 1 2 80 exCtxUser exUser rfl,
   claim_C2.2.2.1 5 exInput exMemUser exUser rfl,
   claim_C2.2.2.2 10 5 80 81 exMemUser exUser rfl rfl (by decide)⟩

def exAfterAdd1 : Mem.MemState :=
  ((Mem.addWeightEntry 5 80 exMemUser).toOption).getD exMemUser

def exAfterAdd2 : Mem.MemState :=
  ((Mem.addWeightEntry 5 81 exAfterAdd1).toOption).getD exAfterAdd1

/-- Counterexample to C7 as stated: two `addWeightEntry` calls that observe
the same `Date.now()` reading (same millisecond) generate the same id, so the
ids of two add operations are not always distinct. -/
theorem claim_C7_counterexample :
    Mem.addWeightEntry 5 80 exMemUser = Except.ok exAfterAdd1 ∧
    Mem.addWeightEntry 5 81 exAfterAdd1 = Except.ok exAfterAdd2 ∧
    exAfterAdd2.weightHistory.map WeightEntry.id = [weightIdOf 5, weightIdOf 5] ∧
    ¬ (exAfterAdd2.weightHistory.map WeightEntry.id).Nodup := by
  refine ⟨rfl, rfl, rfl, by decide⟩

/-- C7 (amended): the id generated by `add` is the fixed collection prefix
followed by the decimal rendering of the `Date.now()` reading, so the ids of
two add operations are distinct whenever their clock readings differ (in
particular across deletes, since ids are never derived from existing entries);
two adds within the same millisecond collide. -/
theorem claim_C7 :
    (∀ m n : Nat, m ≠ n → weightIdOf m ≠ weightIdOf n) ∧
    (∀ m n : Nat, m ≠ n → glIdOf m ≠ glIdOf n) ∧
    (∀ (now : Nat) (w : Int) (s : Mem.MemState) (u : AppUser), s.user = some u →
      ∃ s', Mem.addWeightEntry now w s = Except.ok s' ∧
        WeightEntry.mk (weightIdOf now) now w ∈ s'.weightHistory) ∧
    (∀ (now : Nat) (inp : GlucoseInput) (s : Mem.MemState) (u : AppUser),
      s.user = some u →
      ∃ s', Mem.addGlucoseLog now inp s = Except.ok s' ∧
        newGlucoseLog now now inp ∈ s'.glucoseLogs ∧
        (newGlucoseLog now now inp).id = glIdOf now) := by
  refine ⟨?_, ?_, ?_, ?_⟩
  · intro m n h hc
    exact h (weightIdOf_injective hc)
  · intro m n h hc
    exact h (glIdOf_injective hc)
  · intro now w s u hu
    simp only [Mem.addWeightEntry, hu]
    refine ⟨_, rfl, ?_⟩
    simp [sortWeightDesc]
  · intro now inp s u hu
    simp only [Mem.addGlucoseLog, hu]
    refine ⟨_, rfl, ?_, rfl⟩
    simp [sortGlucoseDesc]

/-- Witness for C7 at distinct concrete clock readings. -/
theorem claim_C7_witness :
    weightIdOf 1 ≠ weightIdOf 2 ∧
    glIdOf 1 ≠ glIdOf 2 ∧
    (∃ s', Mem.addWeightEntry 7 80 exMemUser = Except.ok s' ∧
      WeightEntry.mk (weightIdOf 7) 7 80 ∈ s'.weightHistory) ∧
    (∃ s', Mem.addGlucoseLog 7 exInput exMemUser = Except.ok s' ∧
      newGlucoseLog 7 7 exInput ∈ s'.glucoseLogs ∧
      (newGlucoseLog 7 7 exInput).id = glIdOf 7) :=
  ⟨claim_C7.1 1 2 (by decide),
   claim_C7.2.1 1 2 (by decide),
   claim_C7.2.2.1 7 80 exMemUser exUser rfl,
   claim_C7.2.2.2 7 exInput exMemUser exUser rfl⟩
